import Mathlib

/-!
Verification of the recall-pipeline capture daemon against its design
specification.

This file shallowly embeds the Rust sources of the repository
(crates `recall-capture`, `recall-store`, `recall-db` and the `recall`
binary) and proves, or refutes, a fixed list of behavioural claims.

Modelling conventions:
* machine integers (`u64`, `i64` bit patterns, `u8` pixels) are `Nat`
  with explicit wrap-around (`% 256`, masks) where the code casts;
* UTC timestamps are `Int` (seconds); calendar dates are a record of
  year/month/day, since only formatting and comparison matter here;
* fallible operations (`Result` in Rust) are `Except String` values;
  panics (`expect`/`unwrap`) are modelled with `Option`, `none`
  standing for a panic;
* the CPU kernels supplied by external crates (`image::to_luma8`, the
  triangle resize, the Hellinger histogram metric and SSIM) are taken
  as parameters (`luma`, `rsz`, `hell`, `ssim`); the wrapper behaviour
  that the repository relies on — dimension checks, error paths — is
  embedded explicitly;
* channel and task interleavings are reduced to the per-message step
  functions of each stage, with the channel outcome (`Ok` / `Full` /
  `Closed`) and the store responses supplied as oracle inputs.
-/

namespace Recall

/-! ## Image model -/

/-- An RGBA raster as produced by the platform capture binding
(`image::DynamicImage` in the sources): dimensions plus abstract
channel data. -/
structure DynamicImage where
  width : Nat
  height : Nat
  data : List Nat
deriving DecidableEq

/-- An 8-bit grayscale image (`image::GrayImage`): dimensions plus
row-major pixel bytes. -/
structure GrayImage where
  width : Nat
  height : Nat
  pixels : List Nat
deriving DecidableEq

/-- `DynamicImage::to_luma8` from the `image` crate: grayscale
conversion. The pixel computation is the parameter `luma`; the crate
guarantees that dimensions are preserved, which is embedded here. -/
def to_luma8 (luma : DynamicImage → List Nat) (img : DynamicImage) : GrayImage :=
  ⟨img.width, img.height, luma img⟩

/-- `image::imageops::resize(gray, w, h, FilterType::Triangle)`: the
resampled pixels are the parameter `rsz`; the output dimensions are
the requested ones. -/
def resizeTriangle (rsz : GrayImage → Nat → Nat → List Nat) (g : GrayImage)
    (w h : Nat) : GrayImage :=
  ⟨w, h, rsz g w h⟩

/-! ## recall-capture/src/dedup.rs -/

/-- The bit-setting loop of `phash64` (dedup.rs lines 13-18):
`for (i, p) in resized.pixels().enumerate() { if p.0[0] >= avg { bits |= 1 << i } }`. -/
def phashLoop (avg : Nat) : List Nat → Nat → Nat → Nat
  | [], _, bits => bits
  | p :: ps, i, bits => phashLoop avg ps (i + 1) (if avg ≤ p then bits ||| (1 <<< i) else bits)

/-- `phash64` after grayscale conversion and 8x8 resize (dedup.rs
lines 10-19): `avg = (sum / 64) as u8` (the `% 256` is the `u8` cast,
a no-op for in-range pixel sums), then the bit loop. -/
def phash64Core (px : List Nat) : Nat :=
  phashLoop ((px.sum / 64) % 256) px 0 0

/-- `phash64` (dedup.rs lines 6-20): grayscale, triangle resize to
8x8, threshold against the mean. -/
def phash64 (luma : DynamicImage → List Nat) (rsz : GrayImage → Nat → Nat → List Nat)
    (image : DynamicImage) : Nat :=
  phash64Core (resizeTriangle rsz (to_luma8 luma image) 8 8).pixels

/-- `phash64_async` (dedup.rs lines 25-29):
`tokio::task::spawn_blocking(move || phash64(&image)).await.unwrap_or(0)`.
`joinOk` models whether the blocking task joined successfully. -/
def phash64_async (luma : DynamicImage → List Nat) (rsz : GrayImage → Nat → Nat → List Nat)
    (image : DynamicImage) (joinOk : Bool) : Nat :=
  if joinOk then phash64 luma rsz image else 0

/-- `i64::count_ones` restricted to 64-bit patterns (all phash values
are 64-bit): the number of set bits among positions 0..63. -/
def count_ones (x : Nat) : Nat :=
  ((List.range 64).filter (fun i => x.testBit i)).length

/-- `hamming_distance` (dedup.rs lines 32-34 and its inlined copy in
recall-store/src/postgres.rs lines 19-21): `(a ^ b).count_ones()` on
the 64-bit patterns. -/
def hamming_distance (a b : Nat) : Nat :=
  count_ones (a ^^^ b)

/-- `hash_prefix` (dedup.rs lines 37-39, inlined in postgres.rs lines
24-26): `((phash >> 48) & 0xFFFF) as i16`; the 16-bit pattern is kept
as a `Nat`, signedness does not affect any comparison made on it. -/
def hashPfx16 (phash : Nat) : Nat :=
  (phash >>> 48) &&& 0xFFFF

/-! ## recall-db/src/db.rs and recall-store/src/postgres.rs -/

/-- A row of the `frames` table, restricted to the columns the dedup
path reads: `id`, `captured_at`, `phash`, `phash_prefix`. `Uuid` is
modelled as `Nat`. -/
structure FrameRow where
  id : Nat
  captured_at : Int
  phash : Nat
  pfx16 : Nat
deriving DecidableEq

/-- `PgStorage::insert_frame` (postgres.rs lines 138-163) restricted
to the dedup-relevant columns: generates the row with
`phash_prefix = hash_prefix(phash)` and appends it to the table. -/
def insert_frame (db : List FrameRow) (id : Nat) (captured_at : Int) (phash : Nat) :
    List FrameRow :=
  db ++ [⟨id, captured_at, phash, hashPfx16 phash⟩]

/-- `RecallDb::recent_phash_candidates` (db.rs lines 68-94):
`SELECT id, phash FROM frames WHERE phash_prefix = $1 AND captured_at >= $2 LIMIT 5000`.
Note the query has no upper bound on `captured_at`. -/
def recent_phash_candidates (db : List FrameRow) (pfx : Nat) (since : Int) :
    List (Nat × Nat) :=
  ((db.filter (fun r => r.pfx16 == pfx && decide (since ≤ r.captured_at))).take 5000).map
    (fun r => (r.id, r.phash))

/-- `DEDUP_THRESHOLD` (postgres.rs line 29): Hamming distance bound
for DB-level duplicate detection. -/
def DB_DEDUP_THRESHOLD : Nat := 10

/-- The candidate scan of `is_duplicate` (postgres.rs lines 122-133):
return the id of the first candidate within Hamming distance 10. -/
def is_duplicate_loop (phash : Nat) : List (Nat × Nat) → Option Nat
  | [] => none
  | c :: rest =>
    if hamming_distance phash c.2 ≤ DB_DEDUP_THRESHOLD then some c.1
    else is_duplicate_loop phash rest

/-- `PgStorage::is_duplicate` (postgres.rs lines 110-136): compute the
prefix, fetch candidates since `now - window_secs`, return the first
within distance 10. -/
def is_duplicate (db : List FrameRow) (phash : Nat) (window_secs : Nat) (now : Int) :
    Option Nat :=
  is_duplicate_loop phash
    (recent_phash_candidates db (hashPfx16 phash) (now - (window_secs : Int)))

/-- Modelled from the spec words of claim C2, for comparison with
`is_duplicate`: the spec says candidates are fetched "captured within
[now-window, now]", i.e. with an upper time bound that the SQL query
does not have. -/
def is_duplicate_interval (db : List FrameRow) (phash : Nat) (window_secs : Nat)
    (now : Int) : Option Nat :=
  is_duplicate_loop phash
    (((db.filter (fun r =>
        r.pfx16 == hashPfx16 phash
          && decide (now - (window_secs : Int) ≤ r.captured_at)
          && decide (r.captured_at ≤ now))).take 5000).map
      (fun r => (r.id, r.phash)))

/-- A one-row table whose single frame was captured in the future of
the query instant; used to separate `is_duplicate` from the spec's
interval-bounded description. -/
def dbFuture : List FrameRow := [⟨1, 100, 0, hashPfx16 0⟩]

/-! ## Comparator: dedup.rs similarity functions

The `image-compare` crate fails with `CompareError::DimensionsDiffer`
when the two inputs have different dimensions (the repository relies
on this: `frame_comparer.rs` resizes before calling it, and its tests
document the failure on mismatched sizes). The numeric scores are the
parameters `hell` (Hellinger histogram distance) and `ssim`. -/

/-- Error type of the `image-compare` crate, restricted to the variant
the repository can observe. -/
inductive CompareError
  | DimensionsDiffer
deriving DecidableEq

/-- `image_compare::gray_similarity_histogram(Metric::Hellinger, a, b)`:
errors iff dimensions differ, otherwise the histogram distance. -/
def gray_similarity_histogram (hell : GrayImage → GrayImage → Rat) (a b : GrayImage) :
    Except CompareError Rat :=
  if a.width = b.width ∧ a.height = b.height then .ok (hell a b)
  else .error .DimensionsDiffer

/-- `image_compare::gray_similarity_structure(MSSIMSimple, a, b)`:
errors iff dimensions differ, otherwise the SSIM score. -/
def gray_similarity_structure (ssim : GrayImage → GrayImage → Rat) (a b : GrayImage) :
    Except CompareError Rat :=
  if a.width = b.width ∧ a.height = b.height then .ok (ssim a b)
  else .error .DimensionsDiffer

/-- `compare_histogram` (dedup.rs lines 47-52): luma conversion then
histogram comparison, error propagated. -/
def compare_histogram (luma : DynamicImage → List Nat) (hell : GrayImage → GrayImage → Rat)
    (a b : DynamicImage) : Except CompareError Rat :=
  gray_similarity_histogram hell (to_luma8 luma a) (to_luma8 luma b)

/-- `compare_ssim` (dedup.rs lines 55-62): luma conversion then SSIM
with `.expect("Images had different dimensions")` — the error case is
a panic, modelled as `none`. -/
def compare_ssim (luma : DynamicImage → List Nat) (ssim : GrayImage → GrayImage → Rat)
    (a b : DynamicImage) : Option Rat :=
  match gray_similarity_structure ssim (to_luma8 luma a) (to_luma8 luma b) with
  | .ok s => some s
  | .error _ => none

/-- `frame_difference` (dedup.rs lines 66-70):
`(compare_histogram(a,b)? + (1 - compare_ssim(a,b))) / 2`. The outer
`Option` records whether the call returns at all (`none` = panic in
`compare_ssim`); the inner `Except` is the returned `Result`. -/
def frame_difference (luma : DynamicImage → List Nat)
    (hell ssim : GrayImage → GrayImage → Rat) (a b : DynamicImage) :
    Option (Except CompareError Rat) :=
  match compare_histogram luma hell a b with
  | .error e => some (.error e)
  | .ok h =>
    match compare_ssim luma ssim a b with
    | none => none
    | some s => some (.ok ((h + (1 - s)) / 2))

/-! ## Pipeline messages, metrics and the capture stage -/

/-- `PipelineMetrics` (recall-capture/src/pipeline.rs lines 59-70):
the five pipeline counters. -/
structure Metrics where
  frames_captured : Nat
  frames_deduped_memory : Nat
  frames_deduped_db : Nat
  frames_stored : Nat
  frames_failed : Nat
deriving DecidableEq

/-- The all-zero counter state a fresh `PipelineMetrics::new()` has. -/
def zeroMetrics : Metrics := ⟨0, 0, 0, 0, 0⟩

/-- `CaptureMessage` (recall-capture/src/pipeline.rs lines 25-34):
image, phash, monotonic timestamp (as `Nat`), monitor id. -/
structure CaptureMessage where
  image : DynamicImage
  phash : Nat
  timestamp : Nat
  monitor_id : Nat
deriving DecidableEq

/-- Outcome of `tokio::sync::mpsc::Sender::try_send`, supplied as an
oracle input to the capture step. -/
inductive SendResult
  | sendOk
  | full
  | closed
deriving DecidableEq

/-- The `try_send` match of the binary's `run_capture_task`
(src/bin/recall.rs lines 319-332): on `Ok` and on `Full` the stage
stores the frame as `previous_image`; on `Closed` it exits. Returns
(new previous image, whether the loop continues). -/
def binSendStep (previous : Option DynamicImage) (image : DynamicImage)
    (sr : SendResult) : Option DynamicImage × Bool :=
  match sr with
  | .sendOk => (some image, true)
  | .full => (some image, true)
  | .closed => (previous, false)

/-- The `try_send` match of the library's `run_capture_task`
(recall-capture/src/pipeline.rs lines 188-202): on `Ok` the frame is
moved into the channel and `previous_image` is NOT updated (the
code's own comment: "Actually, we need to clone before sending"); on
`Full` the returned frame is stored; on `Closed` the loop exits. -/
def libSendStep (previous : Option DynamicImage) (image : DynamicImage)
    (sr : SendResult) : Option DynamicImage × Bool :=
  match sr with
  | .sendOk => (previous, true)
  | .full => (some image, true)
  | .closed => (previous, false)

/-- The in-memory dedup threshold `DEDUP_THRESHOLD = 0.006`
(src/bin/recall.rs line 264, recall-capture/src/capture.rs line 17). -/
def MEM_DEDUP_THRESHOLD : Rat := 6 / 1000

/-- The keep path of the binary's capture tick (src/bin/recall.rs
lines 306-332): compute the pHash, count the frame as captured, build
the message and attempt `try_send`. Returns (metrics, previous image,
continue?, the message built and offered to Q1). -/
def captureKeep (luma : DynamicImage → List Nat) (rsz : GrayImage → Nat → Nat → List Nat)
    (monitor_id t : Nat) (m : Metrics) (previous : Option DynamicImage)
    (image : DynamicImage) (sr : SendResult) :
    Metrics × Option DynamicImage × Bool × Option CaptureMessage :=
  let phash := phash64 luma rsz image
  let m1 := { m with frames_captured := m.frames_captured + 1 }
  let msg : CaptureMessage := ⟨image, phash, t, monitor_id⟩
  let sres := binSendStep previous image sr
  (m1, sres.1, sres.2, some msg)

/-- One tick of the binary's `run_capture_task` loop (src/bin/recall.rs
lines 275-333). `snap` is the platform snapshot outcome, `sr` the
`try_send` outcome. The result is `none` when the tick panics (only
possible inside `frame_difference`), otherwise (metrics, previous
image, continue?, message offered to Q1). On snapshot error the code
logs a warning and `continue`s — no counter is touched. -/
def captureTick (luma : DynamicImage → List Nat) (hell ssim : GrayImage → GrayImage → Rat)
    (rsz : GrayImage → Nat → Nat → List Nat) (monitor_id t : Nat) (m : Metrics)
    (previous : Option DynamicImage) (snap : Except String DynamicImage)
    (sr : SendResult) :
    Option (Metrics × Option DynamicImage × Bool × Option CaptureMessage) :=
  match snap with
  | .error _ => some (m, previous, true, none)
  | .ok image =>
    match previous with
    | some prev =>
      match frame_difference luma hell ssim prev image with
      | none => none
      | some (.ok diff) =>
        if diff < MEM_DEDUP_THRESHOLD then
          some ({ m with frames_deduped_memory := m.frames_deduped_memory + 1 },
            some prev, true, none)
        else
          some (captureKeep luma rsz monitor_id t m (some prev) image sr)
      | some (.error _) =>
        some (captureKeep luma rsz monitor_id t m (some prev) image sr)
    | none => some (captureKeep luma rsz monitor_id t m none image sr)

/-! ## Storage stage (src/bin/recall.rs `run_storage_task`) -/

/-- `StorageMessage` (recall-capture/src/pipeline.rs lines 38-47):
what the forwarder puts into Q2. -/
structure Envelope where
  image : DynamicImage
  phash : Nat
  captured_at : Int
  monitor_id : Nat
deriving DecidableEq

/-- Trace of the calls the storage stage makes against the DB store
and the image store; used to state which operations a code path
performs. -/
inductive StoreEvent
  | dupCheck (phash : Nat) (window : Nat)
  | saveJpeg (captured_at : Int)
  | insertRow (captured_at : Int) (phash : Nat)
deriving DecidableEq

/-- Recogniser for the DB-dedup call in a trace. -/
def StoreEvent.isDupCheck : StoreEvent → Bool
  | .dupCheck _ _ => true
  | _ => false

/-- Oracle for the external store and image store: the response each
call would get for a given envelope. -/
structure StoreOracle where
  dup : Envelope → Except String (Option Nat)
  save : Envelope → Except String (String × Nat)
  insert : Envelope → Except String Nat

/-- The JPEG-save-then-insert tail shared by the normal path
(src/bin/recall.rs lines 436-473) and the drain path (lines 489-518):
on save error `frames_failed++` and drop; on insert success
`frames_stored++`; on insert error `frames_failed++`. -/
def storePath (o : StoreOracle) (m : Metrics) (e : Envelope) : Metrics × List StoreEvent :=
  match o.save e with
  | .error _ => ({ m with frames_failed := m.frames_failed + 1 }, [.saveJpeg e.captured_at])
  | .ok _ =>
    match o.insert e with
    | .ok _ =>
      ({ m with frames_stored := m.frames_stored + 1 },
        [.saveJpeg e.captured_at, .insertRow e.captured_at e.phash])
    | .error _ =>
      ({ m with frames_failed := m.frames_failed + 1 },
        [.saveJpeg e.captured_at, .insertRow e.captured_at e.phash])

/-- One envelope of the storage stage outside the drain phase
(src/bin/recall.rs lines 414-473): DB dedup first; `Ok(Some(id))`
counts `frames_deduped_db` and drops the envelope; `Ok(None)`
proceeds; `Err` logs and proceeds (fail-open). -/
def processEnvelope (o : StoreOracle) (m : Metrics) (e : Envelope) (window : Nat) :
    Metrics × List StoreEvent :=
  match o.dup e with
  | .ok (some _) =>
    ({ m with frames_deduped_db := m.frames_deduped_db + 1 }, [.dupCheck e.phash window])
  | .ok none =>
    ((storePath o m e).1, .dupCheck e.phash window :: (storePath o m e).2)
  | .error _ =>
    ((storePath o m e).1, .dupCheck e.phash window :: (storePath o m e).2)

/-- The shutdown drain of `run_storage_task` (src/bin/recall.rs lines
481-521): `while let Ok(frame) = storage_rx.try_recv()` — every queued
envelope goes through `storePath`, with the DB dedup step skipped. -/
def drainQueue (o : StoreOracle) (m : Metrics) : List Envelope → Metrics × List StoreEvent
  | [] => (m, [])
  | e :: rest =>
    ((drainQueue o (storePath o m e).1 rest).1,
      (storePath o m e).2 ++ (drainQueue o (storePath o m e).1 rest).2)

/-! ## Image store (recall-store/src/images.rs) -/

/-- A calendar date in UTC (the `captured_at` component that
`save_jpeg` and the cleanup use). -/
structure UtcDate where
  year : Nat
  month : Nat
  day : Nat
deriving DecidableEq

/-- Zero-padding to two digits, as chrono's `%m` / `%d`. -/
def pad2 (n : Nat) : String :=
  if n < 10 then "0" ++ toString n else toString n

/-- Zero-padding to four digits, as chrono's `%Y` for common-era
years below 10000. -/
def pad4 (n : Nat) : String :=
  if n < 10 then "000" ++ toString n
  else if n < 100 then "00" ++ toString n
  else if n < 1000 then "0" ++ toString n
  else toString n

/-- `timestamp.format("%Y-%m-%d")` (images.rs line 41). -/
def formatDate (d : UtcDate) : String :=
  pad4 d.year ++ "-" ++ pad2 d.month ++ "-" ++ pad2 d.day

/-- `ImageStorage::save_jpeg` (images.rs lines 35-69): build the date
directory from the timestamp, a fresh `Uuid::new_v4` filename (the
`uuid` argument models the drawn UUID string), encode and write.
`encodeResult` collects the fallible filesystem/encoder steps; on
success the returned `image_ref` is `"YYYY-MM-DD/<uuid>.jpg"` with the
file size. -/
def save_jpeg (d : UtcDate) (uuid : String) (encodeResult : Except String Nat) :
    Except String (String × Nat) :=
  match encodeResult with
  | .error e => .error e
  | .ok size => .ok (formatDate d ++ "/" ++ (uuid ++ ".jpg"), size)

/-- An entry inside a date directory: a regular file or not (a
subdirectory, symlink, ...). `remove_dir_all` removes either kind, but
only regular files are counted. -/
structure SubEntry where
  isFile : Bool
deriving DecidableEq

/-- An entry of the image base directory: its name, whether it is a
directory, and its immediate children. -/
structure DirEntry where
  name : String
  isDir : Bool
  entries : List SubEntry
deriving DecidableEq

/-- `remove_dir_contents` (images.rs lines 173-183): counts the
regular files directly inside the directory (non-recursive). -/
def remove_dir_contents (entries : List SubEntry) : Nat :=
  (entries.filter (fun e => e.isFile)).length

/-- Byte-lexicographic `<` of Rust's `&str` comparison
(`name_str.as_ref() < cutoff_date.as_str()`, images.rs line 158),
modelled on the character lists (identical orders on the ASCII names
involved). -/
def lexLt : List Char → List Char → Bool
  | [], [] => false
  | [], _ :: _ => true
  | _ :: _, [] => false
  | a :: as, b :: bs => if a < b then true else if b < a then false else lexLt as bs

/-- The removal condition of `cleanup_old_images` (images.rs lines
152-158): the entry is a directory, its name has length 10, and the
name is lexicographically below the cutoff date string. Note the code
checks only the length, not that the name is made of digits and
dashes. -/
def cleanupRemoves (cutoff_date : String) (e : DirEntry) : Bool :=
  e.isDir && e.name.length == 10 && lexLt e.name.data cutoff_date.data

/-- `ImageStorage::cleanup_old_images` (images.rs lines 131-168) over
an abstract listing of the base directory; `cutoff_date` is the
formatted `Utc::now() - retention_days`. Returns the reported count of
removed regular files and the surviving entries. -/
def cleanup_old_images (cutoff_date : String) : List DirEntry → Nat × List DirEntry
  | [] => (0, [])
  | e :: rest =>
    if cleanupRemoves cutoff_date e then
      (remove_dir_contents e.entries + (cleanup_old_images cutoff_date rest).1,
        (cleanup_old_images cutoff_date rest).2)
    else
      ((cleanup_old_images cutoff_date rest).1, e :: (cleanup_old_images cutoff_date rest).2)

/-- Modelled from the spec words of claim C8: the date pattern
`YYYY-MM-DD` (four digits, dash, two digits, dash, two digits) that
the spec says is required for a directory to be eligible for
cleanup. -/
def matchesDatePattern (s : String) : Bool :=
  match s.data with
  | [c0, c1, c2, c3, c4, c5, c6, c7, c8, c9] =>
    c0.isDigit && c1.isDigit && c2.isDigit && c3.isDigit && c4 == '-'
      && c5.isDigit && c6.isDigit && c7 == '-' && c8.isDigit && c9.isDigit
  | _ => false

/-- A directory whose 10-character name is not a date at all, yet
sorts below every date cutoff beginning with a digit ≥ 1. -/
def oddDir : DirEntry := ⟨"0000aaaaaa", true, [⟨true⟩]⟩

/-! ## Concrete instantiations of the external-kernel parameters,
used by counterexamples and witnesses. -/

/-- Trivial luma kernel for concrete evaluations. -/
def luma0 : DynamicImage → List Nat := fun _ => []

/-- Trivial histogram kernel for concrete evaluations. -/
def hell0 : GrayImage → GrayImage → Rat := fun _ _ => 0

/-- Trivial SSIM kernel for concrete evaluations. -/
def ssim0 : GrayImage → GrayImage → Rat := fun _ _ => 0

/-- Trivial resize kernel for concrete evaluations: an all-black 8x8
raster. -/
def rsz0 : GrayImage → Nat → Nat → List Nat := fun _ _ _ => List.replicate 64 0

/-- The proposition (from claim C10) that the value 0 can arise as a
genuine pHash of some 8x8 grayscale raster. -/
def zeroIsGenuineHash : Prop :=
  ∃ px : List Nat, px.length = 64 ∧ (∀ p ∈ px, p ≤ 255) ∧ phash64Core px = 0

/-- A concrete envelope for witnesses. -/
def env0 : Envelope := ⟨⟨0, 0, []⟩, 0, 0, 0⟩

/-- A store oracle that reports every envelope as a duplicate of
frame 3. -/
def oracleDup : StoreOracle :=
  ⟨fun _ => .ok (some 3), fun _ => .ok ("ref", 1), fun _ => .ok 9⟩

/-- A store oracle that accepts everything and finds no duplicate. -/
def oracleOk : StoreOracle :=
  ⟨fun _ => .ok none, fun _ => .ok ("ref", 1), fun _ => .ok 9⟩

/-- Specification predicate for bit `j` of the pHash loop entered at
index `i`: some pixel sits at offset `j - i` and is at least the
mean. -/
def bitSpec (avg : Nat) (px : List Nat) (i j : Nat) : Bool :=
  decide (i ≤ j) && (((px.get? (j - i)).map (fun p => decide (avg ≤ p))).getD false)

/-! # Theorems -/

/-- Unfolding `bitSpec` over a cons cell. -/
theorem bitSpec_cons (avg p : Nat) (ps : List Nat) (i j : Nat) :
    bitSpec avg (p :: ps) i j
      = ((decide (i = j) && decide (avg ≤ p)) || bitSpec avg ps (i + 1) j) := by
  unfold bitSpec
  rcases Nat.lt_trichotomy i j with hij | hij | hij
  · have h1 : j - i = (j - (i + 1)) + 1 := by omega
    have h2 : i ≤ j := Nat.le_of_lt hij
    have h3 : i + 1 ≤ j := hij
    have h4 : i ≠ j := Nat.ne_of_lt hij
    simp [h1, h2, h3, h4]
  · subst hij
    simp [Nat.sub_self]
  · have h2 : ¬ i ≤ j := Nat.not_le_of_lt hij
    have h3 : ¬ i + 1 ≤ j := by omega
    have h4 : i ≠ j := by omega
    simp [h2, h3, h4]

/-- Bit `j` of the pHash loop: the accumulator's bit, or the bit the
loop itself sets. -/
theorem phashLoop_testBit (avg : Nat) (px : List Nat) :
    ∀ (i bits j : Nat),
      (phashLoop avg px i bits).testBit j = (bits.testBit j || bitSpec avg px i j) := by
  induction px with
  | nil =>
    intro i bits j
    simp [phashLoop, bitSpec]
  | cons p ps ih =>
    intro i bits j
    rw [phashLoop, ih, bitSpec_cons]
    by_cases hp : avg ≤ p
    · simp [hp, Nat.testBit_lor, Nat.one_shiftLeft, Nat.testBit_two_pow, Bool.or_assoc]
    · simp [hp]

/-- Bit `j` of `phash64Core`: set iff pixel `j` exists and is at least
the (u8-cast) mean. -/
theorem phash64Core_testBit (px : List Nat) (j : Nat) :
    (phash64Core px).testBit j
      = (((px.get? j).map (fun p => decide ((px.sum / 64) % 256 ≤ p))).getD false) := by
  unfold phash64Core
  rw [phashLoop_testBit]
  simp [bitSpec, Nat.zero_testBit]

/-- A genuine 8x8 pHash always has a set bit: the maximal pixel is at
least the mean (`sum / 64 ≤ max`), so its bit is set. -/
theorem phash64Core_ne_zero (px : List Nat) (hlen : px.length = 64)
    (hpx : ∀ p ∈ px, p ≤ 255) : phash64Core px ≠ 0 := by
  intro h0
  have havg : ∃ p ∈ px, px.sum / 64 ≤ p := by
    by_contra hno
    push_neg at hno
    by_cases hz : px.sum / 64 = 0
    · have hne : px ≠ [] := by
        intro h
        rw [h] at hlen
        simp at hlen
      obtain ⟨p, hp⟩ := List.exists_mem_of_ne_nil px hne
      exact absurd (hz ▸ Nat.zero_le p) (Nat.not_le_of_lt (hno p hp))
    · have hb : ∀ p ∈ px, p ≤ px.sum / 64 - 1 := by
        intro p hp
        have := hno p hp
        omega
      have hsum : px.sum ≤ px.length * (px.sum / 64 - 1) := by
        have := List.sum_le_card_nsmul px (px.sum / 64 - 1) hb
        simpa [smul_eq_mul] using this
      have hdiv : px.sum / 64 * 64 ≤ px.sum := Nat.div_mul_le_self px.sum 64
      rw [hlen] at hsum
      omega
  obtain ⟨p, hmem, hple⟩ := havg
  obtain ⟨n, hget⟩ := List.mem_iff_get.mp hmem
  have hbit := phash64Core_testBit px n.val
  rw [h0, Nat.zero_testBit] at hbit
  rw [List.get?_eq_get n.isLt, hget] at hbit
  have hmle : (px.sum / 64) % 256 ≤ p :=
    le_trans (Nat.mod_le _ _) hple
  simp [hmle] at hbit

/-- C6: `phash64` grayscales, resizes to 8x8 with the triangle filter,
takes `avg = sum / 64` of the 64 resized pixels, and sets bit `i` of
the result iff pixel `i` (row-major) is at least `avg`; and `phash64`
is deterministic. -/
theorem phash64_bit_rule (luma : DynamicImage → List Nat)
    (rsz : GrayImage → Nat → Nat → List Nat) (img : DynamicImage) (i : Nat)
    (hlen : (rsz (to_luma8 luma img) 8 8).length = 64)
    (hpx : ∀ p ∈ rsz (to_luma8 luma img) 8 8, p ≤ 255)
    (hi : i < (rsz (to_luma8 luma img) 8 8).length) :
    ((phash64 luma rsz img).testBit i
        = decide ((rsz (to_luma8 luma img) 8 8).sum / 64
            ≤ (rsz (to_luma8 luma img) 8 8).get ⟨i, hi⟩))
      ∧ phash64 luma rsz img = phash64 luma rsz img := by
  refine ⟨?_, rfl⟩
  have hmod : ((rsz (to_luma8 luma img) 8 8).sum / 64) % 256
      = (rsz (to_luma8 luma img) 8 8).sum / 64 := by
    apply Nat.mod_eq_of_lt
    have hsum : (rsz (to_luma8 luma img) 8 8).sum
        ≤ (rsz (to_luma8 luma img) 8 8).length * 255 := by
      have := List.sum_le_card_nsmul (rsz (to_luma8 luma img) 8 8) 255 hpx
      simpa [smul_eq_mul] using this
    rw [hlen] at hsum
    have hq : (rsz (to_luma8 luma img) 8 8).sum / 64 ≤ 64 * 255 / 64 :=
      Nat.div_le_div_right hsum
    norm_num at hq
    omega
  have hph : phash64 luma rsz img = phash64Core (rsz (to_luma8 luma img) 8 8) := rfl
  rw [hph, phash64Core_testBit, hmod, List.get?_eq_get hi]
  rfl

/-- C6 witness: the all-black 8x8 raster at bit 0. -/
theorem phash64_bit_rule_witness :
    ((rsz0 (to_luma8 luma0 ⟨0, 0, []⟩) 8 8).length = 64)
    ∧ ((phash64 luma0 rsz0 ⟨0, 0, []⟩).testBit 0
        = decide ((rsz0 (to_luma8 luma0 ⟨0, 0, []⟩) 8 8).sum / 64
            ≤ (rsz0 (to_luma8 luma0 ⟨0, 0, []⟩) 8 8).get ⟨0, by decide⟩)) :=
  ⟨by decide,
    (phash64_bit_rule luma0 rsz0 ⟨0, 0, []⟩ 0 (by decide) (by decide) (by decide)).1⟩

/-- C10 (counterexample): the failure value 0 of `phash64_async` is
not "indistinguishable from a genuine hash of 0" — no 8x8 raster
hashes to 0, because the bit of a maximal pixel is always set. -/
theorem zero_hash_not_genuine : ¬ zeroIsGenuineHash := by
  rintro ⟨px, h1, h2, h3⟩
  exact phash64Core_ne_zero px h1 h2 h3

/-- C10 (amended): `phash64_async` never returns an error: it returns
`phash64` of the image when the blocking task joins, and the sentinel
0 when the join fails (a value a genuine 8x8 hash never takes, since
the bit of a maximal pixel is always set). -/
theorem phash64_async_rule (luma : DynamicImage → List Nat)
    (rsz : GrayImage → Nat → Nat → List Nat) (image : DynamicImage) (joinOk : Bool) :
    (joinOk = true → phash64_async luma rsz image joinOk = phash64 luma rsz image)
    ∧ (joinOk = false → phash64_async luma rsz image joinOk = 0) := by
  constructor <;> intro h <;> simp [phash64_async, h]

/-- C10 witness: both join outcomes at a concrete image. -/
theorem phash64_async_rule_witness :
    phash64_async luma0 rsz0 ⟨0, 0, []⟩ true = phash64 luma0 rsz0 ⟨0, 0, []⟩
      ∧ phash64_async luma0 rsz0 ⟨0, 0, []⟩ false = 0 :=
  ⟨(phash64_async_rule luma0 rsz0 ⟨0, 0, []⟩ true).1 rfl,
    (phash64_async_rule luma0 rsz0 ⟨0, 0, []⟩ false).2 rfl⟩

/-- Right shift distributes over xor. -/
theorem shiftRight_xor (a b k : Nat) : (a ^^^ b) >>> k = a >>> k ^^^ b >>> k := by
  apply Nat.eq_of_testBit_eq
  intro i
  simp [Nat.testBit_shiftRight, Nat.testBit_xor]

/-- The 16-bit phash prefix commutes with xor. -/
theorem hashPfx16_xor (a b : Nat) : hashPfx16 (a ^^^ b) = hashPfx16 a ^^^ hashPfx16 b := by
  unfold hashPfx16
  rw [shiftRight_xor, Nat.and_xor_distrib_right]

/-- The prefix of 1 is 0 (bit 0 is far below bit 48). -/
theorem hashPfx16_one : hashPfx16 1 = 0 := by decide

/-- Flipping bit 0 keeps the 16-bit prefix. -/
theorem hashPfx16_xor_one (a : Nat) : hashPfx16 (a ^^^ 1) = hashPfx16 a := by
  rw [hashPfx16_xor, hashPfx16_one, Nat.xor_zero]

/-- Xor cancellation: `(a ^^^ b) ^^^ a = b`. -/
theorem xor_xor_self_left (a b : Nat) : (a ^^^ b) ^^^ a = b := by
  rw [Nat.xor_comm a b, Nat.xor_assoc, Nat.xor_self, Nat.xor_zero]

/-- Hamming distance of a hash to itself is 0. -/
theorem hamming_self (a : Nat) : hamming_distance a a = 0 := by
  unfold hamming_distance
  rw [Nat.xor_self]
  decide

/-- Hamming distance across a single flipped low bit is 1. -/
theorem hamming_xor_one (a : Nat) : hamming_distance (a ^^^ 1) a = 1 := by
  unfold hamming_distance
  rw [xor_xor_self_left]
  decide

/-- Hamming distance of a 64-bit hash to its complement is 64. -/
theorem hamming_complement (a : Nat) : hamming_distance (a ^^^ (2 ^ 64 - 1)) a = 64 := by
  unfold hamming_distance
  rw [xor_xor_self_left]
  decide

/-- The candidate scan is `find?` of the distance predicate, projected
to the id. -/
theorem is_duplicate_loop_eq_find (phash : Nat) (l : List (Nat × Nat)) :
    is_duplicate_loop phash l
      = (l.find? (fun c => decide (hamming_distance phash c.2 ≤ DB_DEDUP_THRESHOLD))).map
          Prod.fst := by
  induction l with
  | nil => rfl
  | cons c rest ih =>
    rw [is_duplicate_loop, List.find?_cons]
    by_cases h : hamming_distance phash c.2 ≤ DB_DEDUP_THRESHOLD
    · simp [h]
    · simp [h, ih]

/-- `take n` of a one-element list with `1 ≤ n`. -/
theorem take_singleton {α : Type} (n : Nat) (x : α) (hn : 1 ≤ n) :
    List.take n [x] = [x] := by
  cases n with
  | zero => omega
  | succ k => simp

/-- Candidate fetch over a one-row table. -/
theorem recent_candidates_singleton (r : FrameRow) (pfx : Nat) (since : Int) :
    recent_phash_candidates [r] pfx since
      = if r.pfx16 == pfx && decide (since ≤ r.captured_at) then [(r.id, r.phash)]
        else [] := by
  unfold recent_phash_candidates
  by_cases h : (r.pfx16 == pfx && decide (since ≤ r.captured_at)) = true
  · rw [if_pos h]
    simp only [List.filter_cons, h, if_true, List.filter_nil]
    rw [take_singleton 5000 r (by norm_num)]
    rfl
  · rw [if_neg h]
    simp only [List.filter_cons, h, if_false, List.filter_nil]
    rfl

/-- C2 (counterexample): the SQL behind `is_duplicate` has no upper
time bound, so a frame whose `captured_at` lies after `now` is still
returned as a duplicate, while the spec's "captured within
[now-window, now]" description returns none. -/
theorem is_duplicate_no_upper_bound :
    is_duplicate dbFuture 0 60 0 = some 1
      ∧ is_duplicate_interval dbFuture 0 60 0 = none := by
  constructor <;> rfl

/-- C2 (amended): `is_duplicate` computes the 16-bit prefix, fetches
candidates with that prefix captured at or after `now - window` (no
upper bound), limited to 5000, and returns the first id within
Hamming distance 10, else none; after inserting a frame with phash
`H` captured within the window, `is_duplicate H` and
`is_duplicate (H ^^^ 1)` return its id and `is_duplicate` of the
complement returns none. -/
theorem is_duplicate_rule :
    (∀ (db : List FrameRow) (phash window_secs : Nat) (now : Int),
        is_duplicate db phash window_secs now
          = ((recent_phash_candidates db (hashPfx16 phash)
                (now - (window_secs : Int))).find?
              (fun c => decide (hamming_distance phash c.2 ≤ DB_DEDUP_THRESHOLD))).map
              Prod.fst)
    ∧ (∀ (H id : Nat) (t now : Int), H < 2 ^ 64 → now - 60 ≤ t →
        is_duplicate (insert_frame [] id t H) H 60 now = some id
          ∧ is_duplicate (insert_frame [] id t H) (H ^^^ 1) 60 now = some id
          ∧ is_duplicate (insert_frame [] id t H) (H ^^^ (2 ^ 64 - 1)) 60 now = none) := by
  constructor
  · intro db phash w now
    exact is_duplicate_loop_eq_find phash _
  · intro H id t now hH ht
    have h60 : ((60 : Nat) : Int) = 60 := by norm_num
    have hins : insert_frame [] id t H = [⟨id, t, H, hashPfx16 H⟩] := rfl
    have hd : decide (now - ((60 : Nat) : Int) ≤ t) = true := by
      rw [h60]
      exact decide_eq_true ht
    refine ⟨?_, ?_, ?_⟩
    · rw [is_duplicate, hins, recent_candidates_singleton]
      simp only [beq_self_eq_true, hd, Bool.and_true, if_true]
      simp [is_duplicate_loop, hamming_self, DB_DEDUP_THRESHOLD]
    · rw [is_duplicate, hins, hashPfx16_xor_one, recent_candidates_singleton]
      simp only [beq_self_eq_true, hd, Bool.and_true, if_true]
      simp [is_duplicate_loop, hamming_xor_one, DB_DEDUP_THRESHOLD]
    · rw [is_duplicate, hins, recent_candidates_singleton]
      by_cases hc : ((⟨id, t, H, hashPfx16 H⟩ : FrameRow).pfx16
          == hashPfx16 (H ^^^ (2 ^ 64 - 1))
            && decide (now - ((60 : Nat) : Int) ≤ t)) = true
      · rw [if_pos hc]
        have hno : ¬ hamming_distance (H ^^^ (2 ^ 64 - 1)) H ≤ DB_DEDUP_THRESHOLD := by
          rw [hamming_complement]
          decide
        rw [is_duplicate_loop, if_neg hno]
        rfl
      · rw [if_neg hc]
        rfl

/-- C2 witness: a single inserted frame with phash 0, queried at the
capture instant. -/
theorem is_duplicate_rule_witness :
    is_duplicate (insert_frame [] 7 0 0) 0 60 0 = some 7 :=
  (is_duplicate_rule.2 0 7 0 0 (by norm_num) (by norm_num)).1

/-- C3: whenever the two frames cannot be compared the comparator
returns an error — it never panics (the histogram comparison fails
first, shielding the `expect` in `compare_ssim`) — and the capture
stage then treats the frame as different: it proceeds to the pHash /
enqueue path, counting the frame as captured. -/
theorem comparator_uncomparable_keeps_frame :
    (∀ (luma : DynamicImage → List Nat) (hell ssim : GrayImage → GrayImage → Rat)
        (a b : DynamicImage), frame_difference luma hell ssim a b ≠ none)
    ∧ (∀ (luma : DynamicImage → List Nat) (hell ssim : GrayImage → GrayImage → Rat)
        (a b : DynamicImage), a.width ≠ b.width ∨ a.height ≠ b.height →
          frame_difference luma hell ssim a b = some (.error .DimensionsDiffer))
    ∧ (∀ (luma : DynamicImage → List Nat) (hell ssim : GrayImage → GrayImage → Rat)
        (rsz : GrayImage → Nat → Nat → List Nat) (mid t : Nat) (m : Metrics)
        (prev image : DynamicImage) (sr : SendResult) (err : CompareError),
          frame_difference luma hell ssim prev image = some (.error err) →
            captureTick luma hell ssim rsz mid t m (some prev) (.ok image) sr
              = some (captureKeep luma rsz mid t m (some prev) image sr))
    ∧ (∀ (luma : DynamicImage → List Nat) (rsz : GrayImage → Nat → Nat → List Nat)
        (mid t : Nat) (m : Metrics) (previous : Option DynamicImage)
        (image : DynamicImage) (sr : SendResult),
          (captureKeep luma rsz mid t m previous image sr).1.frames_captured
              = m.frames_captured + 1
            ∧ (captureKeep luma rsz mid t m previous image sr).2.2.2
              = some ⟨image, phash64 luma rsz image, t, mid⟩) := by
  refine ⟨?_, ?_, ?_, ?_⟩
  · intro luma hell ssim a b h
    unfold frame_difference compare_histogram compare_ssim gray_similarity_histogram
      gray_similarity_structure at h
    by_cases hw : (to_luma8 luma a).width = (to_luma8 luma b).width
        ∧ (to_luma8 luma a).height = (to_luma8 luma b).height
    · rw [if_pos hw, if_pos hw] at h
      simp at h
    · rw [if_neg hw] at h
      simp at h
  · intro luma hell ssim a b hne
    have hw : ¬ ((to_luma8 luma a).width = (to_luma8 luma b).width
        ∧ (to_luma8 luma a).height = (to_luma8 luma b).height) := by
      rcases hne with h | h
      · exact fun hand => h hand.1
      · exact fun hand => h hand.2
    unfold frame_difference compare_histogram gray_similarity_histogram
    rw [if_neg hw]
  · intro luma hell ssim rsz mid t m prev image sr err hfd
    have hred : captureTick luma hell ssim rsz mid t m (some prev) (.ok image) sr
        = match frame_difference luma hell ssim prev image with
          | none => none
          | some (.ok diff) =>
            if diff < MEM_DEDUP_THRESHOLD then
              some ({ m with frames_deduped_memory := m.frames_deduped_memory + 1 },
                some prev, true, none)
            else some (captureKeep luma rsz mid t m (some prev) image sr)
          | some (.error _) =>
            some (captureKeep luma rsz mid t m (some prev) image sr) := rfl
    rw [hred, hfd]
  · intro luma rsz mid t m previous image sr
    exact ⟨rfl, rfl⟩

/-- C3 witness: two frames of different widths are reported
uncomparable with an error, not a panic. -/
theorem comparator_uncomparable_keeps_frame_witness :
    frame_difference luma0 hell0 ssim0 ⟨1, 1, []⟩ ⟨2, 1, []⟩
      = some (.error .DimensionsDiffer) :=
  comparator_uncomparable_keeps_frame.2.1 luma0 hell0 ssim0 ⟨1, 1, []⟩ ⟨2, 1, []⟩
    (Or.inl (by decide))

/-- C4: the binary's capture stage stores the frame just captured as
`previous` after every send attempt that does not observe a closed
channel (`Ok` and `Full` alike); the library's `run_capture_task`,
evaluated at its failing input, leaves `previous` unset after a
successful send. -/
theorem previous_updated_on_send :
    (∀ (previous : Option DynamicImage) (image : DynamicImage) (sr : SendResult),
        sr ≠ .closed → (binSendStep previous image sr).1 = some image)
    ∧ (libSendStep none ⟨1, 1, [0]⟩ .sendOk).1 = none := by
  constructor
  · intro previous image sr h
    cases sr with
    | sendOk => rfl
    | full => rfl
    | closed => exact absurd rfl h
  · rfl

/-- C4 witness: the binary's step at a concrete frame and a
successful send. -/
theorem previous_updated_on_send_witness :
    (binSendStep none ⟨1, 1, [0]⟩ .sendOk).1 = some ⟨1, 1, [0]⟩ :=
  previous_updated_on_send.1 none ⟨1, 1, [0]⟩ .sendOk (by decide)

/-- C9 (counterexample): a failed snapshot leaves every counter at
zero — `frames_failed` is not incremented, contrary to the claim —
and the loop continues. -/
theorem snapshot_failure_no_counter :
    captureTick luma0 hell0 ssim0 rsz0 0 0 zeroMetrics none (.error "snap") .sendOk
      = some (zeroMetrics, none, true, none) := rfl

/-- C9 (amended): on a platform snapshot failure the capture stage
logs and continues ticking without exiting, without enqueuing, and
without touching any counter (in particular `frames_failed`). -/
theorem snapshot_failure_continues (luma : DynamicImage → List Nat)
    (hell ssim : GrayImage → GrayImage → Rat) (rsz : GrayImage → Nat → Nat → List Nat)
    (mid t : Nat) (m : Metrics) (previous : Option DynamicImage) (msg : String)
    (sr : SendResult) :
    captureTick luma hell ssim rsz mid t m previous (.error msg) sr
      = some (m, previous, true, none) := rfl

/-- C5: outside the drain, a positive DB-dedup answer increments
`frames_deduped_db` and drops the envelope without saving a JPEG or
inserting a row; a DB-dedup error proceeds with the save-and-insert
path (fail-open, never fail-closed). -/
theorem storage_dedup_disposition (o : StoreOracle) (m : Metrics) (e : Envelope)
    (w : Nat) :
    (∀ id, o.dup e = .ok (some id) →
        processEnvelope o m e w
          = ({ m with frames_deduped_db := m.frames_deduped_db + 1 },
              [.dupCheck e.phash w]))
    ∧ (∀ err, o.dup e = .error err →
        processEnvelope o m e w
          = ((storePath o m e).1, .dupCheck e.phash w :: (storePath o m e).2)) := by
  constructor
  · intro id h
    unfold processEnvelope
    rw [h]
  · intro err h
    unfold processEnvelope
    rw [h]

/-- C5 witness: an oracle that reports a duplicate with id 3. -/
theorem storage_dedup_disposition_witness :
    processEnvelope oracleDup zeroMetrics env0 60
      = ({ zeroMetrics with frames_deduped_db := 1 }, [.dupCheck 0 60]) :=
  (storage_dedup_disposition oracleDup zeroMetrics env0 60).1 3 rfl

/-- C1: the shutdown drain processes every queued envelope through
the save-and-insert path with the DB-dedup step skipped (no dupCheck
appears in the call trace), and when the stores accept every save and
insert, `frames_stored` rises by exactly the number of queued
envelopes before the task exits. -/
theorem shutdown_drain_stores_all (o : StoreOracle) (m : Metrics) (q : List Envelope)
    (hok : ∀ e ∈ q, (o.save e).isOk = true ∧ (o.insert e).isOk = true) :
    (drainQueue o m q).1.frames_stored = m.frames_stored + q.length
    ∧ ∀ ev ∈ (drainQueue o m q).2, ev.isDupCheck = false := by
  revert hok
  induction q generalizing m with
  | nil =>
    intro hok
    exact ⟨rfl, by intro ev hv; cases hv⟩
  | cons e rest ih =>
    intro hok
    have he := hok e (List.mem_cons_self e rest)
    have hrest : ∀ x ∈ rest, (o.save x).isOk = true ∧ (o.insert x).isOk = true :=
      fun x hx => hok x (List.mem_cons_of_mem e hx)
    have hsp : (storePath o m e).1.frames_stored = m.frames_stored + 1
        ∧ ∀ ev ∈ (storePath o m e).2, ev.isDupCheck = false := by
      unfold storePath
      cases hs : o.save e with
      | error msg =>
        rw [hs] at he
        exact Bool.noConfusion he.1
      | ok v =>
        cases hi : o.insert e with
        | error msg =>
          rw [hi] at he
          exact Bool.noConfusion he.2
        | ok idv =>
          refine ⟨rfl, ?_⟩
          intro ev hv
          simp only [List.mem_cons, List.not_mem_nil, or_false] at hv
          rcases hv with rfl | rfl <;> rfl
    obtain ⟨ih1, ih2⟩ := ih (storePath o m e).1 hrest
    constructor
    · show (drainQueue o m (e :: rest)).1.frames_stored = m.frames_stored + (rest.length + 1)
      rw [drainQueue]
      rw [ih1, hsp.1]
      omega
    · intro ev hv
      rw [drainQueue] at hv
      rcases List.mem_append.mp hv with h | h
      · exact hsp.2 ev h
      · exact ih2 ev h

/-- C1 witness: one queued envelope against an all-accepting store. -/
theorem shutdown_drain_stores_all_witness :
    (drainQueue oracleOk zeroMetrics [env0]).1.frames_stored
      = zeroMetrics.frames_stored + 1 :=
  (shutdown_drain_stores_all oracleOk zeroMetrics [env0]
    (by intro e he; exact ⟨rfl, rfl⟩)).1

/-- C7: a successful `save_jpeg` returns an `image_ref` that begins
with the formatted UTC date of the timestamp and ends with ".jpg";
two saves drawing distinct UUIDs — even at an identical timestamp —
return distinct refs. -/
theorem save_jpeg_refs (d : UtcDate) (u1 u2 : String) (e1 e2 : Except String Nat)
    (r1 : String) (s1 : Nat) (r2 : String) (s2 : Nat)
    (h1 : save_jpeg d u1 e1 = .ok (r1, s1)) :
    (∃ rest, r1 = formatDate d ++ rest)
    ∧ (∃ pre, r1 = pre ++ ".jpg")
    ∧ (save_jpeg d u2 e2 = .ok (r2, s2) → u1 ≠ u2 → r1 ≠ r2) := by
  cases e1 with
  | error msg => simp [save_jpeg] at h1
  | ok size =>
    have hr1 : r1 = formatDate d ++ "/" ++ (u1 ++ ".jpg") := by
      simp [save_jpeg] at h1
      exact h1.1.symm
    refine ⟨⟨"/" ++ (u1 ++ ".jpg"), ?_⟩, ⟨formatDate d ++ "/" ++ u1, ?_⟩, ?_⟩
    · rw [hr1]
      exact String.append_assoc (formatDate d) "/" (u1 ++ ".jpg")
    · rw [hr1]
      exact (String.append_assoc (formatDate d ++ "/") u1 ".jpg").symm
    · intro h2 hne heq
      cases e2 with
      | error msg2 => simp [save_jpeg] at h2
      | ok size2 =>
        have hr2 : r2 = formatDate d ++ "/" ++ (u2 ++ ".jpg") := by
          simp [save_jpeg] at h2
          exact h2.1.symm
        apply hne
        rw [hr1, hr2] at heq
        have hd := congrArg String.data heq
        simp only [String.data_append] at hd
        exact String.ext (List.append_cancel_right (List.append_cancel_left hd))

/-- C7 witness: a concrete date and two UUID draws. -/
theorem save_jpeg_refs_witness :
    (∃ rest, ("2026-10-12/a.jpg" : String) = formatDate ⟨2026, 10, 12⟩ ++ rest)
    ∧ (∃ pre, ("2026-10-12/a.jpg" : String) = pre ++ ".jpg")
    ∧ (save_jpeg ⟨2026, 10, 12⟩ "b" (.ok 5) = .ok ("2026-10-12/b.jpg", 5)
        → ("a" : String) ≠ "b"
        → ("2026-10-12/a.jpg" : String) ≠ "2026-10-12/b.jpg") :=
  save_jpeg_refs ⟨2026, 10, 12⟩ "a" "b" (.ok 5) (.ok 5) "2026-10-12/a.jpg" 5
    "2026-10-12/b.jpg" 5 rfl

/-- C8 (counterexample): a 10-character directory name that does not
match the date pattern is still removed by the cleanup when it sorts
below the cutoff — the code checks only the length, not the
pattern. -/
theorem cleanup_removes_nonmatching_dir :
    matchesDatePattern "0000aaaaaa" = false
      ∧ cleanup_old_images "2025-09-12" [oddDir] = (1, []) := by
  constructor <;> rfl

/-- C8 (amended): cleanup removes exactly the directories whose names
have length 10 and sort lexicographically below `today − retention`,
keeps every other entry, and returns the count of regular files
directly inside the removed directories. -/
theorem cleanup_length10_rule (cutoff : String) (entries : List DirEntry) :
    (cleanup_old_images cutoff entries).2
        = entries.filter (fun e => ! cleanupRemoves cutoff e)
    ∧ (cleanup_old_images cutoff entries).1
        = ((entries.filter (cleanupRemoves cutoff)).map
            (fun e => remove_dir_contents e.entries)).sum := by
  induction entries with
  | nil => exact ⟨rfl, rfl⟩
  | cons e rest ih =>
    by_cases h : cleanupRemoves cutoff e = true
    · refine ⟨?_, ?_⟩ <;> simp [cleanup_old_images, h, List.filter_cons, ih.1, ih.2]
    · refine ⟨?_, ?_⟩ <;> simp [cleanup_old_images, h, List.filter_cons, ih.1, ih.2]

end Recall
